import Mathlib

/-!
Shallow embedding of `app/api/connection-details/route.ts` (two variants of the
token-issuance route handler) and of the local-track adapter
(`createLocalTrack` and friends) from the agent-starter-react repository.

JavaScript runtime values that flow through the route (request bodies parsed
from JSON, optional-chained property accesses) are modelled by the inductive
type `JSValue`.  External effects — `process.env`, the token-signing library
(`AccessToken.toJwt`), `Math.random` draws, the livekit room SDK, the browser
device APIs — are modelled as explicit oracle parameters, so every definition
is executable and the handlers become pure functions of their oracles.
-/

namespace AgentStarterReact

/-- Model of a JavaScript runtime value (as produced by `JSON.parse` or passed
around as `any`/`unknown` in the route handlers). -/
inductive JSValue where
  | undefined : JSValue
  | null : JSValue
  | bool (b : Bool) : JSValue
  | num (n : Int) : JSValue
  | str (s : String) : JSValue
  | arr (xs : List JSValue) : JSValue
  | obj (fields : List (String × JSValue)) : JSValue

/-- JavaScript truthiness of a value (`if (v)`). -/
def truthy : JSValue → Bool
  | .undefined => false
  | .null => false
  | .bool b => b
  | .num n => n != 0
  | .str s => s != ""
  | .arr _ => true
  | .obj _ => true

/-- Is the value nullish (`null` or `undefined`), i.e. does `v?.x`
short-circuit? -/
def nullish : JSValue → Bool
  | .undefined => true
  | .null => true
  | _ => false

/-- Named property access `v[k]` on a non-nullish value: object lookup yields
the stored value or `undefined`; named properties of arrays, strings, numbers
and booleans that the route accesses (`room_config`, `agents`, `agent_name`)
are absent, hence `undefined`. -/
def propGet : JSValue → String → JSValue
  | .obj fields, k => ((fields.find? (fun p => p.1 = k)).map Prod.snd).getD .undefined
  | _, _ => .undefined

/-- Optional-chained property access `v?.k`. -/
def optChain (v : JSValue) (k : String) : JSValue :=
  if nullish v then .undefined else propGet v k

/-- Numeric index access `v[i]` on a non-nullish value: array element (or
`undefined` out of range), object lookup of the stringified index, single
character of a string. -/
def idxGet : JSValue → Nat → JSValue
  | .arr xs, i => xs.getD i .undefined
  | .obj fields, i => ((fields.find? (fun p => p.1 = toString i)).map Prod.snd).getD .undefined
  | .str s, i => if i < s.length then .str (String.singleton (s.get ⟨i⟩)) else .undefined
  | _, _ => .undefined

/-- Optional-chained index access `v?.[i]`. -/
def optIdx (v : JSValue) (i : Nat) : JSValue :=
  if nullish v then .undefined else idxGet v i

/-- Agent-name extraction of the first route variant:
`body?.room_config?.agents?.[0]?.agent_name`. -/
def getAgentNameV1 (body : JSValue) : JSValue :=
  optChain (optIdx (optChain (optChain body "room_config") "agents") 0) "agent_name"

/-- The `isRecord` type guard of the second route variant:
`typeof v === 'object' && v !== null` (arrays are objects in JavaScript). -/
def isRecord : JSValue → Bool
  | .obj _ => true
  | .arr _ => true
  | _ => false

/-- The `getAgentNameFromBody` type guard of the second route variant: walks
`room_config.agents[0].agent_name` demanding records, a non-empty array, and
a string-typed name at the end. -/
def getAgentNameFromBody (body : JSValue) : Option String :=
  if isRecord body then
    let rc := propGet body "room_config"
    if isRecord rc then
      match propGet rc "agents" with
      | .arr xs =>
        if xs.length = 0 then none
        else
          let first := xs.getD 0 .undefined
          if isRecord first then
            match propGet first "agent_name" with
            | .str s => some s
            | _ => none
          else none
      | _ => none
    else none
  else none

/-- A `string | undefined` TypeScript value as a JavaScript runtime value. -/
def optToJS : Option String → JSValue
  | some s => .str s
  | none => .undefined

/-- Response payload type of the route (`type ConnectionDetails`). -/
structure ConnectionDetails where
  serverUrl : String
  roomName : String
  participantName : String
  participantToken : String
deriving DecidableEq, Repr

/-- Result of one request: either the 200 JSON payload or the structured
error JSON produced by the catch-all (`status`, `error`, `message`). -/
inductive HandleResult where
  | success (data : ConnectionDetails)
  | failure (status : Nat) (error : String) (message : String)
deriving DecidableEq, Repr

/-- The parts of the incoming `Request` the handler inspects: the method, the
`agentName` query parameter (`searchParams.get` result), and the JSON body —
`none` models a body on which `req.json()` rejects (empty or invalid JSON). -/
structure RouteRequest where
  method : String
  queryAgentName : Option String
  body : Option JSValue

/-- The `requireEnv` helper: reads `process.env[name]` (the `env` oracle) and
throws `` `${name} is not defined` `` when the value is falsy (absent or the
empty string). -/
def requireEnv (env : String → Option String) (name : String) : Except String String :=
  match env name with
  | none => .error (name ++ " is not defined")
  | some v => if v = "" then .error (name ++ " is not defined") else .ok v

/-- Participant identity generated by the handler from the random draw
`Math.floor(Math.random() * 10_000)`. -/
def participantIdentity (u : Nat) : String :=
  "voice_assistant_user_" ++ toString u

/-- Room name generated by the handler from its random draw. -/
def generatedRoomName (r : Nat) : String :=
  "voice_assistant_room_" ++ toString r

/-- One agent entry of a `RoomConfiguration` (`{ agentName }`); the first
route variant can store a non-string runtime value here. -/
structure RoomAgent where
  agentName : JSValue

/-- The `RoomConfiguration` attached to a token (`{ agents: [...] }`). -/
structure RoomConfiguration where
  agents : List RoomAgent

/-- The `VideoGrant` added to the access token. -/
structure VideoGrant where
  room : String
  roomJoin : Bool
  canPublish : Bool
  canPublishData : Bool
  canSubscribe : Bool
deriving DecidableEq, Repr

/-- Everything `createParticipantToken` hands to the signing library: the
`AccessToken` constructor arguments (key, secret, identity, name, ttl), the
grants added with `addGrant`, and the optional `roomConfig`. -/
structure TokenRequest where
  apiKey : String
  apiSecret : String
  identity : String
  name : String
  ttl : String
  grants : List VideoGrant
  roomConfig : Option RoomConfiguration

/-- The token request built by `createParticipantToken` before `toJwt` is
called: `new AccessToken(apiKey, apiSecret, {...userInfo, ttl: '15m'})`, then
`addGrant` of the five-field grant, then `roomConfig` when `agentName` is
truthy. -/
def builtTokenRequest (idn nm roomName : String) (agentName : JSValue)
    (apiKey apiSecret : String) : TokenRequest :=
  let at0 : TokenRequest :=
    { apiKey, apiSecret, identity := idn, name := nm, ttl := "15m",
      grants := [], roomConfig := none }
  let grant : VideoGrant :=
    { room := roomName, roomJoin := true, canPublish := true,
      canPublishData := true, canSubscribe := true }
  let at1 := { at0 with grants := at0.grants ++ [grant] }
  if truthy agentName then
    { at1 with roomConfig := some { agents := [{ agentName }] } }
  else at1

/-- `createParticipantToken`: builds the token request and asks the signing
oracle (`at.toJwt()`) for the JWT; the oracle may reject. -/
def createParticipantToken (sign : TokenRequest → Except String String)
    (idn nm roomName : String) (agentName : JSValue)
    (apiKey apiSecret : String) : Except String String :=
  sign (builtTokenRequest idn nm roomName agentName apiKey apiSecret)

/-- Agent-name selection of the first route variant: for `POST`, optional
chaining over the parsed body (an unparsable body is replaced by `{}`); for
any other method, the `agentName` query parameter (`?? undefined`). -/
def routeAgentName (req : RouteRequest) : JSValue :=
  if req.method = "POST" then getAgentNameV1 (req.body.getD (.obj []))
  else optToJS req.queryAgentName

/-- Agent-name selection of the second route variant: for `POST`, the
`getAgentNameFromBody` type guard over the parsed body (`{}` when parsing
failed); for any other method, the query parameter. -/
def routeAgentName2 (req : RouteRequest) : Option String :=
  if req.method = "POST" then getAgentNameFromBody (req.body.getD (.obj []))
  else req.queryAgentName

/-- The first variant of `handle`: reads the three environment variables,
extracts the agent name, draws the identity and room name from the random
draws `u` and `r`, signs the token, and answers with the `ConnectionDetails`
JSON; any thrown error is converted into the structured 500 JSON. -/
def handle (env : String → Option String) (sign : TokenRequest → Except String String)
    (u r : Nat) (req : RouteRequest) : HandleResult :=
  let run : Except String ConnectionDetails := do
    let url ← requireEnv env "LIVEKIT_URL"
    let apiKey ← requireEnv env "LIVEKIT_API_KEY"
    let apiSecret ← requireEnv env "LIVEKIT_API_SECRET"
    let agentName := routeAgentName req
    let participantName := "user"
    let idn := participantIdentity u
    let roomName := generatedRoomName r
    let participantToken ←
      createParticipantToken sign idn participantName roomName agentName apiKey apiSecret
    pure { serverUrl := url, roomName, participantName, participantToken }
  match run with
  | .ok d => .success d
  | .error m => .failure 500 "connection-details-failed" m

/-- The second variant of `handle`; identical except that the agent name is
extracted with the `getAgentNameFromBody` type guard. -/
def handle2 (env : String → Option String) (sign : TokenRequest → Except String String)
    (u r : Nat) (req : RouteRequest) : HandleResult :=
  let run : Except String ConnectionDetails := do
    let url ← requireEnv env "LIVEKIT_URL"
    let apiKey ← requireEnv env "LIVEKIT_API_KEY"
    let apiSecret ← requireEnv env "LIVEKIT_API_SECRET"
    let agentName := optToJS (routeAgentName2 req)
    let participantName := "user"
    let idn := participantIdentity u
    let roomName := generatedRoomName r
    let participantToken ←
      createParticipantToken sign idn participantName roomName agentName apiKey apiSecret
    pure { serverUrl := url, roomName, participantName, participantToken }
  match run with
  | .ok d => .success d
  | .error m => .failure 500 "connection-details-failed" m

/-- The list of field values of the response JSON object, used to state that
some string does or does not appear in the response. -/
def connectionDetailsFields (d : ConnectionDetails) : List String :=
  [d.serverUrl, d.roomName, d.participantName, d.participantToken]

/-! Local-track adapter (`createLocalTrack` and its closures). -/

/-- The `Track.Source` enum of the client SDK, as matched by the adapter. -/
inductive Source where
  | camera
  | microphone
  | screenShare
  | screenShareAudio
  | unknown
deriving DecidableEq, Repr

/-- String value of a `Track.Source` member, as interpolated into the error
messages of the adapter. -/
def sourceName : Source → String
  | .camera => "camera"
  | .microphone => "microphone"
  | .screenShare => "screen_share"
  | .screenShareAudio => "screen_share_audio"
  | .unknown => "unknown"

/-- The `mediaDeviceKind` chosen by the `switch` at the top of
`createLocalTrack`: `'videoinput'` for the camera, `'audioinput'` for the
microphone, `null` for every other source. -/
def mediaDeviceKind : Source → Option String
  | .camera => some "videoinput"
  | .microphone => some "audioinput"
  | _ => none

/-- The sources handled by the `switch` statements of `handleParticipantEvent`
and `setEnabled` (every other source hits their `default: throw`). -/
def isHandledSource : Source → Bool
  | .camera => true
  | .microphone => true
  | .screenShare => true
  | _ => false

/-- The `ParticipantEvent` members listed in `participantEvents`. -/
inductive PEvent where
  | trackMuted
  | trackUnmuted
  | participantPermissionsChanged
  | trackPublished
  | trackUnpublished
  | localTrackPublished
  | localTrackUnpublished
  | mediaDevicesError
  | trackSubscriptionStatusChanged
deriving DecidableEq, Repr

/-- The fixed `participantEvents` array the adapter subscribes to. -/
def participantEvents : List PEvent :=
  [.trackMuted, .trackUnmuted, .participantPermissionsChanged,
   .trackPublished, .trackUnpublished,
   .localTrackPublished, .localTrackUnpublished,
   .mediaDevicesError, .trackSubscriptionStatusChanged]

/-- Identity of a listener callback: each `createLocalTrack` call creates the
two closures `handleParticipantEvent` and `handleDeviceChange`. -/
inductive HandlerFn where
  | handleParticipantEventFn
  | handleDeviceChangeFn
deriving DecidableEq, Repr

/-- A registered listener: a participant-level event subscription
(`localParticipant.on`), the `devicechange` listener on
`navigator.mediaDevices`, or the `RoomEvent.ActiveDeviceChanged` listener on
the room. -/
inductive Listener where
  | participant (event : PEvent) (fn : HandlerFn)
  | deviceChange (fn : HandlerFn)
  | activeDeviceChanged (fn : HandlerFn)
deriving DecidableEq, Repr

/-- The participant-level listener this instance registers for an event. -/
def ownParticipantListener (e : PEvent) : Listener :=
  .participant e .handleParticipantEventFn

/-- Events emitted on the instance's typed emitter (`LocalTrackEvent`). -/
inductive EmittedEvent where
  | deviceError (message : String) (source : Source)
  | pendingDisabled
  | deviceListError (message : String) (source : Source)
  | activeDeviceChangeError (message : String) (source : Source)
deriving DecidableEq, Repr

/-- `Track.Dimensions` of a published track. -/
structure Dimensions where
  width : Nat
  height : Nat
deriving DecidableEq, Repr

/-- Orientation derived from the published dimensions. -/
inductive TrackOrientation where
  | landscape
  | portrait
deriving DecidableEq, Repr

/-- The published track handle, of which the adapter reads
`track.mediaStreamTrack.label`. -/
structure TrackHandle where
  label : String
deriving DecidableEq, Repr

/-- A `LocalTrackPublication` as seen by the adapter: its optional dimensions
and its optional underlying track. -/
structure Publication where
  dimensions : Option Dimensions
  track : Option TrackHandle
deriving DecidableEq, Repr

/-- One entry of the platform device list; `listDevices` filters on
`deviceId`. -/
structure MediaDeviceInfo where
  deviceId : String
  kind : String
  label : String
deriving DecidableEq, Repr

/-- The `LocalUserChoices` record persisted by the components library. -/
structure LocalUserChoices where
  username : String
  videoEnabled : Bool
  audioEnabled : Bool
  videoDeviceId : String
  audioDeviceId : String
deriving DecidableEq, Repr

/-- An update `updateUserChoices(key, value)` can apply. -/
inductive UCUpdate where
  | videoEnabled (b : Bool)
  | audioEnabled (b : Bool)
  | videoDeviceId (id : String)
  | audioDeviceId (id : String)
deriving DecidableEq, Repr

/-- Apply one keyed update to a `LocalUserChoices` record. -/
def applyUCUpdate : UCUpdate → LocalUserChoices → LocalUserChoices
  | .videoEnabled b, c => { c with videoEnabled := b }
  | .audioEnabled b, c => { c with audioEnabled := b }
  | .videoDeviceId id, c => { c with videoDeviceId := id }
  | .audioDeviceId id, c => { c with audioDeviceId := id }

/-- Opaque capture-options bag (`AudioCaptureOptions` /
`VideoCaptureOptions` / `ScreenShareCaptureOptions`); the adapter only passes
it through to the SDK. -/
structure CaptureOpts where
  payload : Nat
deriving DecidableEq, Repr

/-- Opaque `TrackPublishOptions` bag, passed through to the SDK. -/
structure PublishOpts where
  payload : Nat
deriving DecidableEq, Repr

/-- A read-only snapshot of the SDK room: the three enablement getters of the
local participant, `getActiveDevice`, and `getTrackPublication`. -/
structure RoomSnapshot where
  isCameraEnabled : Bool
  isMicrophoneEnabled : Bool
  isScreenShareEnabled : Bool
  activeDevice : String → Option String
  publication : Source → Option Publication

/-- The SDK room oracle: the current snapshot plus the effect of each
asynchronous SDK call the adapter makes.  A call either rejects with an error
message or resolves, yielding the room snapshot observed afterwards. -/
structure RoomOracle where
  state : RoomSnapshot
  setCameraEnabled : Bool → Option CaptureOpts → Option PublishOpts → Except String RoomSnapshot
  setMicrophoneEnabled : Bool → Option CaptureOpts → Option PublishOpts → Except String RoomSnapshot
  setScreenShareEnabled : Bool → Option CaptureOpts → Option PublishOpts → Except String RoomSnapshot
  switchActiveDevice : String → String → Option Bool → Except String RoomSnapshot
  getLocalDevices : String → Bool → Except String (List MediaDeviceInfo)

/-- The enablement getter named by `getterKey` for a source, read from a room
snapshot (`isCameraEnabled` / `isMicrophoneEnabled` / `isScreenShareEnabled`;
unreachable for unhandled sources, which throw earlier). -/
def sourceEnabledGetter (source : Source) (r : RoomSnapshot) : Bool :=
  match source with
  | .camera => r.isCameraEnabled
  | .microphone => r.isMicrophoneEnabled
  | .screenShare => r.isScreenShareEnabled
  | _ => false

/-- The SDK call `setEnabled` makes for a handled source
(`setCameraEnabled` / `setMicrophoneEnabled` / `setScreenShareEnabled`);
unhandled sources throw before any call is made. -/
def sdkSetCall (room : RoomOracle) (source : Source) (enabled : Bool)
    (cap : Option CaptureOpts) (pub : Option PublishOpts) : Except String RoomSnapshot :=
  match source with
  | .camera => room.setCameraEnabled enabled cap pub
  | .microphone => room.setMicrophoneEnabled enabled cap pub
  | .screenShare => room.setScreenShareEnabled enabled cap pub
  | _ => .error "unreachable"

/-- The browser environment flags `initialize` consults: whether `window`
(and with it `navigator.mediaDevices`) exists, and `window.isSecureContext`. -/
structure BrowserEnv where
  hasWindow : Bool
  isSecureContext : Bool
deriving DecidableEq, Repr

/-- The reactive fields of a `LocalTrackInstance` (the `devices` sub-view). -/
structure DevicesView where
  kind : String
  activeId : String
  list : List MediaDeviceInfo
deriving DecidableEq, Repr

/-- The reactive fields of a `LocalTrackInstance` held in the store. -/
structure TrackState where
  source : Source
  enabled : Bool
  pending : Bool
  devices : Option DevicesView
  dimensions : Option Dimensions
  orientation : Option TrackOrientation
  publication : Option Publication
  userChoices : LocalUserChoices
deriving DecidableEq, Repr

/-- The full observable state of one adapter instance: the published track
state, the log of events emitted on its emitter, the log of
`saveUserChoices` calls (choices saved together with the
`preventUserChoicesSave` flag), and the multiset of listeners currently
registered on external targets. -/
structure AdapterState where
  track : TrackState
  events : List EmittedEvent
  saved : List (LocalUserChoices × Bool)
  listeners : Multiset Listener

/-- The initial `LocalTrackInstance` record returned by `createLocalTrack`:
disabled, not pending, a `devices` view exactly for camera/microphone (with
`activeId` from `getActiveDevice` or `'default'` and an empty list), no
dimensions or orientation, the current publication, and the loaded user
choices. -/
def createLocalTrack (room : RoomOracle) (source : Source)
    (loadedChoices : LocalUserChoices) : TrackState :=
  { source
    enabled := false
    pending := false
    devices :=
      match mediaDeviceKind source with
      | some kind =>
        some { kind, activeId := (room.state.activeDevice kind).getD "default", list := [] }
      | none => none
    dimensions := none
    orientation := none
    publication := room.state.publication source
    userChoices := loadedChoices }

/-- `updateUserChoices`: writes the keyed value into the store and then calls
`saveUserChoices` on the updated record (recorded in the `saved` log together
with the `preventUserChoicesSave` flag). -/
def updateUserChoices (u : UCUpdate) (preventSave : Bool) (s : AdapterState) : AdapterState :=
  let choices := applyUCUpdate u s.track.userChoices
  { s with
    track := { s.track with userChoices := choices }
    saved := s.saved ++ [(choices, preventSave)] }

/-- `listDevices`: throws for sources without a `mediaDeviceKind`; otherwise
queries `Room.getLocalDevices` and filters out entries with an empty
`deviceId`. -/
def listDevices (room : RoomOracle) (source : Source)
    (requestPermissions : Bool) : Except String (List MediaDeviceInfo) :=
  match mediaDeviceKind source with
  | none =>
    .error ("LocalTrackInstance.devices.list - Unable to list devices for track source "
      ++ sourceName source ++ ".")
  | some kind =>
    match room.getLocalDevices kind requestPermissions with
    | .error e => .error e
    | .ok devices => .ok (devices.filter (fun d => d.deviceId != ""))

/-- `handleDeviceChange`: lists devices (emitting `DeviceListError` and
rethrowing on failure) and stores the list in the `devices` view (the store
callback throws when the view is absent).  The returned `Option String` is
the error escaping this async callback, which its callers never await. -/
def handleDeviceChangeRun (room : RoomOracle) (source : Source)
    (s : AdapterState) : AdapterState × Option String :=
  match listDevices room source false with
  | .error e =>
    ({ s with events := s.events ++ [EmittedEvent.deviceListError e source] }, some e)
  | .ok list =>
    match s.track.devices with
    | none =>
      (s, some ("LocalTrackInstance.handleDeviceChang - Error storing device list for track source "
        ++ sourceName source))
    | some dv =>
      ({ s with track := { s.track with devices := some { dv with list } } }, none)

/-- `handleParticipantEvent`: reads the publication and the enablement getter
for the source (throwing on unhandled sources before any store update),
derives the orientation from the published dimensions, and writes
`enabled` / `dimensions` / `orientation` / `publication` into the store. -/
def handleParticipantEventRun (room : RoomOracle) (source : Source)
    (s : AdapterState) : AdapterState × Option String :=
  let publication := room.state.publication source
  if isHandledSource source then
    let enabled := sourceEnabledGetter source room.state
    let orientation : Option TrackOrientation :=
      match publication.bind Publication.dimensions with
      | some d => some (if d.width > d.height then .landscape else .portrait)
      | none => none
    ({ s with
        track := { s.track with
          enabled
          dimensions := publication.bind Publication.dimensions
          orientation
          publication } }, none)
  else
    (s, some ("LocalTrackInstance.handleParticipantEvent - Unable to handle processing track source "
      ++ sourceName source ++ "."))

/-- The secure-context error thrown by `initialize` when media devices are
requested outside a secure browsing context. -/
def secureContextMessage : String :=
  "Accessing media devices is available only in secure contexts (HTTPS and localhost), in some or all supporting browsers. See: https://developer.mozilla.org/en-US/docs/Web/API/Navigator/mediaDevices"

/-- `initialize`: runs `handleParticipantEvent` once (its throw aborts
initialization), registers `handleParticipantEvent` for every event of
`participantEvents`, and for camera/microphone sources runs
`handleDeviceChange` (fire-and-forget), throws outside secure contexts, adds
the `devicechange` listener when `window` exists, and the
`ActiveDeviceChanged` room listener.  Returns the resulting state and the
thrown error, if any. -/
def initAdapter (room : RoomOracle) (env : BrowserEnv) (source : Source)
    (s : AdapterState) : AdapterState × Option String :=
  match handleParticipantEventRun room source s with
  | (s0, some e) => (s0, some e)
  | (s0, none) =>
    let s1 := { s0 with
      listeners := participantEvents.foldl (fun m e => m + {ownParticipantListener e}) s0.listeners }
    match mediaDeviceKind source with
    | none => (s1, none)
    | some _ =>
      let s2 := (handleDeviceChangeRun room source s1).1
      if env.hasWindow && !env.isSecureContext then
        (s2, some secureContextMessage)
      else
        let s3 :=
          if env.hasWindow then
            { s2 with listeners := s2.listeners + {Listener.deviceChange .handleDeviceChangeFn} }
          else s2
        let s4 :=
          { s3 with listeners := s3.listeners + {Listener.activeDeviceChanged .handleDeviceChangeFn} }
        (s4, none)

/-- `teardown`: unsubscribes `handleParticipantEvent` from every event of
`participantEvents`, and for camera/microphone sources removes the
`devicechange` listener (a no-op when `navigator` is absent) and the
`ActiveDeviceChanged` room listener.  Removing an unregistered listener is a
no-op of the underlying emitters. -/
def teardown (env : BrowserEnv) (source : Source) (s : AdapterState) : AdapterState :=
  let m1 := participantEvents.foldl (fun m e => m.erase (ownParticipantListener e)) s.listeners
  let m2 :=
    match mediaDeviceKind source with
    | none => m1
    | some _ =>
      let ma :=
        if env.hasWindow then m1.erase (Listener.deviceChange .handleDeviceChangeFn) else m1
      ma.erase (Listener.activeDeviceChanged .handleDeviceChangeFn)
  { s with listeners := m2 }

/-- Outcome of a `setEnabled` call: blocked forever on `waitUntilNotPending`
(no concurrent call will ever emit `PendingDisabled` in this sequential
model), a thrown error, or the resolved boolean together with the final
adapter state and the room snapshot after the SDK call. -/
inductive SetOutcome where
  | blocked (s : AdapterState)
  | threw (message : String) (s : AdapterState)
  | ok (ret : Bool) (s : AdapterState) (room : RoomSnapshot)

/-- The value a settled `setEnabled` call resolves with, if any. -/
def setOutcomeRet : SetOutcome → Option Bool
  | .ok ret _ _ => some ret
  | _ => none

/-- The error a `setEnabled` call rethrows, if any. -/
def setOutcomeThrewMsg : SetOutcome → Option String
  | .threw m _ => some m
  | _ => none

/-- The adapter state a `setEnabled` call leaves behind. -/
def setOutcomeState : SetOutcome → AdapterState
  | .blocked s => s
  | .threw _ s => s
  | .ok _ s _ => s

/-- The adapter state published while the SDK enable/disable call is in
flight: `set((old) => ({ ...old, pending: true }))`. -/
def setEnabledDuringCall (s : AdapterState) : AdapterState :=
  { s with track := { s.track with pending := true } }

/-- Error message of the `default` arm of the `setEnabled` switch. -/
def setEnabledInvalidMessage (source : Source) : String :=
  "LocalTrackInstance.setEnabled - Unable to handle enabling track source "
    ++ sourceName source ++ "."

/-- Common continuation of `setEnabled` once the per-source SDK call has been
chosen: await the call; on rejection emit `DeviceError`, clear `pending` (the
`finally`), and rethrow; on resolution clear `pending`, persist the
enablement preference for camera/microphone, write the `enabled` flag, emit
`PendingDisabled`, and return the live getter for the source. -/
def setEnabledSettle (call : Except String RoomSnapshot) (getter : RoomSnapshot → Bool)
    (source : Source) (enabled : Bool) (preventSave : Bool)
    (s1 : AdapterState) : SetOutcome :=
  match call with
  | .error e =>
    let s2 := { s1 with events := s1.events ++ [EmittedEvent.deviceError e source] }
    let s3 := { s2 with track := { s2.track with pending := false } }
    .threw e s3
  | .ok r =>
    let s2 := { s1 with track := { s1.track with pending := false } }
    let s3 :=
      match source with
      | .camera => updateUserChoices (.videoEnabled enabled) preventSave s2
      | .microphone => updateUserChoices (.audioEnabled enabled) preventSave s2
      | _ => s2
    let s4 := { s3 with track := { s3.track with enabled := enabled } }
    let s5 := { s4 with events := s4.events ++ [EmittedEvent.pendingDisabled] }
    .ok (getter r) s5 r

/-- `setEnabled`: waits until not pending (which never completes here when
`pending` is already set, as no concurrent call exists in this sequential
model), marks the state pending, dispatches the per-source SDK call (the
`default` arm throws with `pending` still set), and settles. -/
def setEnabled (room : RoomOracle) (source : Source) (preventSave : Bool)
    (enabled : Bool) (cap : Option CaptureOpts) (pub : Option PublishOpts)
    (s : AdapterState) : SetOutcome :=
  if s.track.pending then .blocked s
  else
    let s1 := setEnabledDuringCall s
    match source with
    | .camera =>
      setEnabledSettle (room.setCameraEnabled enabled cap pub)
        (fun r => r.isCameraEnabled) source enabled preventSave s1
    | .microphone =>
      setEnabledSettle (room.setMicrophoneEnabled enabled cap pub)
        (fun r => r.isMicrophoneEnabled) source enabled preventSave s1
    | .screenShare =>
      setEnabledSettle (room.setScreenShareEnabled enabled cap pub)
        (fun r => r.isScreenShareEnabled) source enabled preventSave s1
    | _ => .threw (setEnabledInvalidMessage source) s1

/-- `toggleEnabled`: `setEnabled(!get().enabled, captureOptions,
publishOptions)`. -/
def toggleEnabled (room : RoomOracle) (source : Source) (preventSave : Bool)
    (cap : Option CaptureOpts) (pub : Option PublishOpts)
    (s : AdapterState) : SetOutcome :=
  setEnabled room source preventSave (!s.track.enabled) cap pub s

/-- Error message of the guards of `changeActiveDevice`. -/
def changeActiveDeviceInvalidMessage (source : Source) : String :=
  "LocalTrackInstance.devices.change - Unable to change active device for track source "
    ++ sourceName source ++ "."

/-- The `userChoices` key updated by `changeActiveDevice` for a source. -/
def userChoicesDeviceKey : Source → Option (String → UCUpdate)
  | .camera => some UCUpdate.videoDeviceId
  | .microphone => some UCUpdate.audioDeviceId
  | _ => none

/-- `changeActiveDevice`: throws for sources without a device kind (and in the
unreachable `default` of its key switch); calls `switchActiveDevice`
(emitting `ActiveDeviceChangeError` and rethrowing on rejection); computes
the actual device id, whether the browser default is in effect, and the new
current id; when that id is truthy, stores it as `activeId` and persists the
requested id in the user choices.  Returns the new current device id. -/
def changeActiveDevice (room : RoomOracle) (source : Source) (preventSave : Bool)
    (id : String) (exact : Option Bool)
    (s : AdapterState) : AdapterState × Except String String :=
  match mediaDeviceKind source with
  | none => (s, .error (changeActiveDeviceInvalidMessage source))
  | some kind =>
    match userChoicesDeviceKey source with
    | none => (s, .error (changeActiveDeviceInvalidMessage source))
    | some ucKey =>
      match room.switchActiveDevice kind id exact with
      | .error e =>
        ({ s with events := s.events ++ [EmittedEvent.activeDeviceChangeError e source] }, .error e)
      | .ok r =>
        let actualDeviceId := (r.activeDevice kind).getD id
        let targetTrack :=
          if kind = "audioinput" then (r.publication .microphone).bind Publication.track
          else if kind = "videoinput" then (r.publication .camera).bind Publication.track
          else none
        let useDefault :=
          (id = "default" && targetTrack.isNone)
            || (id = "default" && (targetTrack.map (fun t => t.label.startsWith "Default")).getD false)
        let newCurrentDeviceId := if useDefault then id else actualDeviceId
        if newCurrentDeviceId ≠ "" then
          let s1 := { s with
            track := { s.track with
              devices := s.track.devices.map (fun dv => { dv with activeId := newCurrentDeviceId }) } }
          let s2 := updateUserChoices (ucKey id) preventSave s1
          (s2, .ok newCurrentDeviceId)
        else (s, .ok newCurrentDeviceId)

/-! Generic multiset bookkeeping used to reason about listener registration. -/

/-- Erase the elements of a list from a multiset, one occurrence each, in
order (the shape of the teardown unsubscription loop). -/
def eraseList {α : Type} [DecidableEq α] (m : Multiset α) (l : List α) : Multiset α :=
  l.foldl Multiset.erase m

/-- The participant-level listeners one instance registers, as a list. -/
def ownParticipantListeners : List Listener :=
  participantEvents.map ownParticipantListener

/-! Concrete fixtures used by witnesses and counterexamples. -/

/-- A fully configured `process.env`. -/
def exEnv : String → Option String := fun n =>
  if n = "LIVEKIT_URL" then some "wss://example" else
  if n = "LIVEKIT_API_KEY" then some "key" else
  if n = "LIVEKIT_API_SECRET" then some "secret" else none

/-- An environment with no variables set. -/
def exEnvNoUrl : String → Option String := fun _ => none

/-- An environment with only the server URL set. -/
def exEnvNoKey : String → Option String := fun n =>
  if n = "LIVEKIT_URL" then some "wss://example" else none

/-- An environment missing only the API secret. -/
def exEnvNoSecret : String → Option String := fun n =>
  if n = "LIVEKIT_URL" then some "wss://example" else
  if n = "LIVEKIT_API_KEY" then some "key" else none

/-- A signing oracle that always succeeds with a fixed JWT. -/
def exSign : TokenRequest → Except String String := fun _ => .ok "tok"

/-- A signing oracle that always rejects. -/
def exSignFail : TokenRequest → Except String String := fun _ => .error "boom"

/-- A `GET` request with no `agentName` query parameter. -/
def exReqGet : RouteRequest := { method := "GET", queryAgentName := none, body := none }

/-- A `GET` request whose `agentName` query parameter is present but empty
(`?agentName=`). -/
def exReqGetEmptyAgent : RouteRequest :=
  { method := "GET", queryAgentName := some "", body := none }

/-- A `GET` request naming an agent. -/
def exReqGetAgent : RouteRequest :=
  { method := "GET", queryAgentName := some "myagent", body := none }

/-- A `POST` request whose body is empty or invalid JSON (`req.json()`
rejects). -/
def exReqPostInvalid : RouteRequest :=
  { method := "POST", queryAgentName := none, body := none }

/-- A parsed `POST` body whose `agent_name` is the number `42` rather than a
string. -/
def bodyNum42 : JSValue :=
  .obj [("room_config", .obj [("agents", .arr [.obj [("agent_name", .num 42)]])])]

/-- A well-formed parsed `POST` body naming the agent `myagent`. -/
def bodyGood : JSValue :=
  .obj [("room_config", .obj [("agents", .arr [.obj [("agent_name", .str "myagent")]])])]

/-- Default user choices, standing in for `loadUserChoices()`. -/
def defaultChoices : LocalUserChoices :=
  { username := "", videoEnabled := false, audioEnabled := false,
    videoDeviceId := "", audioDeviceId := "" }

/-- A concrete room snapshot. -/
def sampleSnapshot : RoomSnapshot :=
  { isCameraEnabled := true, isMicrophoneEnabled := false, isScreenShareEnabled := false,
    activeDevice := fun _ => none, publication := fun _ => none }

/-- A room oracle on which every SDK call resolves. -/
def sampleRoom : RoomOracle :=
  { state := sampleSnapshot
    setCameraEnabled := fun _ _ _ => .ok sampleSnapshot
    setMicrophoneEnabled := fun _ _ _ => .ok sampleSnapshot
    setScreenShareEnabled := fun _ _ _ => .ok sampleSnapshot
    switchActiveDevice := fun _ _ _ => .ok sampleSnapshot
    getLocalDevices := fun _ _ => .ok [] }

/-- A room oracle on which every SDK call rejects. -/
def failRoom : RoomOracle :=
  { state := sampleSnapshot
    setCameraEnabled := fun _ _ _ => .error "device denied"
    setMicrophoneEnabled := fun _ _ _ => .error "device denied"
    setScreenShareEnabled := fun _ _ _ => .error "device denied"
    switchActiveDevice := fun _ _ _ => .error "switch denied"
    getLocalDevices := fun _ _ => .error "enumeration denied" }

/-- A room oracle whose device enumeration returns one entry with an empty
`deviceId` and one real device. -/
def deviceRoom : RoomOracle :=
  { state := sampleSnapshot
    setCameraEnabled := fun _ _ _ => .ok sampleSnapshot
    setMicrophoneEnabled := fun _ _ _ => .ok sampleSnapshot
    setScreenShareEnabled := fun _ _ _ => .ok sampleSnapshot
    switchActiveDevice := fun _ _ _ => .ok sampleSnapshot
    getLocalDevices := fun _ _ =>
      .ok [{ deviceId := "", kind := "videoinput", label := "hidden" },
           { deviceId := "id1", kind := "videoinput", label := "Cam" }] }

/-- A concrete adapter state for a camera instance, as freshly created. -/
def sampleAdapterState : AdapterState :=
  { track := createLocalTrack sampleRoom .camera defaultChoices
    events := []
    saved := []
    listeners := 0 }

/-- A concrete browser environment: a window in a secure context. -/
def secureBrowser : BrowserEnv := { hasWindow := true, isSecureContext := true }

/-! Helper lemmas shared by the claims. -/

/-- Bind of a successful `Except` computation. -/
theorem bindOk {ε α β : Type} (a : α) (f : α → Except ε β) :
    (Except.ok a : Except ε α) >>= f = f a := rfl

/-- Bind of a failed `Except` computation. -/
theorem bindError {ε α β : Type} (e : ε) (f : α → Except ε β) :
    (Except.error e : Except ε α) >>= f = .error e := rfl

/-- `requireEnv` succeeds on a set, non-empty variable. -/
theorem requireEnv_ok (env : String → Option String) (name v : String)
    (h : env name = some v) (h' : v ≠ "") : requireEnv env name = .ok v := by
  simp [requireEnv, h, h']

/-- `requireEnv` throws on an unset or empty variable. -/
theorem requireEnv_falsy (env : String → Option String) (name : String)
    (h : env name = none ∨ env name = some "") :
    requireEnv env name = .error (name ++ " is not defined") := by
  rcases h with h | h <;> simp [requireEnv, h]

/-- Optional chaining agrees with plain property access on every modelled
value: nullish values have no own properties either way. -/
theorem optChain_eq_propGet (v : JSValue) (k : String) : optChain v k = propGet v k := by
  cases v <;> rfl

/-! Claims about the token-issuance route. -/

/-- C1, counterexample.  With all three environment variables set, a signing
oracle returning `"tok"`, random draws `5` and `7`, and a plain `GET`
request, the response is the success JSON — but the generated participant
identity `voice_assistant_user_5` appears in none of its four fields (the
`participantName` field carries the fixed display name `user`), so the claim
that the JSON contains the participant identity is false. -/
theorem c1_counterexample :
    handle exEnv exSign 5 7 exReqGet =
      .success { serverUrl := "wss://example", roomName := "voice_assistant_room_7",
                 participantName := "user", participantToken := "tok" }
    ∧ participantIdentity 5 = "voice_assistant_user_5"
    ∧ participantIdentity 5 ∉ connectionDetailsFields
        { serverUrl := "wss://example", roomName := "voice_assistant_room_7",
          participantName := "user", participantToken := "tok" } := by
  refine ⟨rfl, rfl, ?_⟩
  decide

/-- C1, amended.  For every request for which all three environment variables
are set and non-empty and token signing succeeds, the endpoint responds with
a JSON object containing the server URL, the generated room name, the fixed
participant display name `user`, and the participant token; the generated
participant identity is placed inside the signed token request, not in the
response body. -/
theorem c1_success_response (env : String → Option String)
    (sign : TokenRequest → Except String String) (u r : Nat) (req : RouteRequest)
    (url key secret tok : String)
    (hu : env "LIVEKIT_URL" = some url) (hu' : url ≠ "")
    (hk : env "LIVEKIT_API_KEY" = some key) (hk' : key ≠ "")
    (hs : env "LIVEKIT_API_SECRET" = some secret) (hs' : secret ≠ "")
    (hsig : sign (builtTokenRequest (participantIdentity u) "user" (generatedRoomName r)
        (routeAgentName req) key secret) = .ok tok) :
    handle env sign u r req =
      .success { serverUrl := url, roomName := generatedRoomName r,
                 participantName := "user", participantToken := tok } := by
  unfold handle
  rw [requireEnv_ok _ _ _ hu hu', requireEnv_ok _ _ _ hk hk', requireEnv_ok _ _ _ hs hs']
  simp only [bindOk]
  unfold createParticipantToken
  rw [hsig]
  rfl

/-- C1, witness for the amended theorem at a concrete input. -/
theorem c1_witness :
    handle exEnv exSign 5 7 exReqGet =
      .success { serverUrl := "wss://example", roomName := generatedRoomName 7,
                 participantName := "user", participantToken := "tok" } :=
  c1_success_response exEnv exSign 5 7 exReqGet "wss://example" "key" "secret" "tok"
    rfl (by decide) rfl (by decide) rfl (by decide) rfl

/-- C2.  Whenever the handler fails, the response is the structured JSON
error with status 500 and error field `connection-details-failed`: for the
first falsy environment variable (checked in order `LIVEKIT_URL`,
`LIVEKIT_API_KEY`, `LIVEKIT_API_SECRET`) the message is
`<name> is not defined`, and when all three are set and signing rejects, the
message is the signing error's message. -/
theorem c2_error_response (env : String → Option String)
    (sign : TokenRequest → Except String String) (u r : Nat) (req : RouteRequest) :
    ((env "LIVEKIT_URL" = none ∨ env "LIVEKIT_URL" = some "") →
      handle env sign u r req
        = .failure 500 "connection-details-failed" "LIVEKIT_URL is not defined")
    ∧ (∀ url, env "LIVEKIT_URL" = some url → url ≠ "" →
        (env "LIVEKIT_API_KEY" = none ∨ env "LIVEKIT_API_KEY" = some "") →
        handle env sign u r req
          = .failure 500 "connection-details-failed" "LIVEKIT_API_KEY is not defined")
    ∧ (∀ url key, env "LIVEKIT_URL" = some url → url ≠ "" →
        env "LIVEKIT_API_KEY" = some key → key ≠ "" →
        (env "LIVEKIT_API_SECRET" = none ∨ env "LIVEKIT_API_SECRET" = some "") →
        handle env sign u r req
          = .failure 500 "connection-details-failed" "LIVEKIT_API_SECRET is not defined")
    ∧ (∀ url key secret e, env "LIVEKIT_URL" = some url → url ≠ "" →
        env "LIVEKIT_API_KEY" = some key → key ≠ "" →
        env "LIVEKIT_API_SECRET" = some secret → secret ≠ "" →
        sign (builtTokenRequest (participantIdentity u) "user" (generatedRoomName r)
          (routeAgentName req) key secret) = .error e →
        handle env sign u r req = .failure 500 "connection-details-failed" e) := by
  refine ⟨?_, ?_, ?_, ?_⟩
  · intro h
    unfold handle
    rw [requireEnv_falsy _ _ h]
    rfl
  · intro url hu hu' h
    unfold handle
    rw [requireEnv_ok _ _ _ hu hu', requireEnv_falsy _ _ h]
    rfl
  · intro url key hu hu' hk hk' h
    unfold handle
    rw [requireEnv_ok _ _ _ hu hu', requireEnv_ok _ _ _ hk hk', requireEnv_falsy _ _ h]
    rfl
  · intro url key secret e hu hu' hk hk' hs hs' hsig
    unfold handle
    rw [requireEnv_ok _ _ _ hu hu', requireEnv_ok _ _ _ hk hk', requireEnv_ok _ _ _ hs hs']
    simp only [bindOk]
    unfold createParticipantToken
    rw [hsig]
    rfl

/-- C2, witness: the four failure modes at concrete inputs. -/
theorem c2_witness :
    handle exEnvNoUrl exSign 5 7 exReqGet
      = .failure 500 "connection-details-failed" "LIVEKIT_URL is not defined"
    ∧ handle exEnvNoKey exSign 5 7 exReqGet
      = .failure 500 "connection-details-failed" "LIVEKIT_API_KEY is not defined"
    ∧ handle exEnvNoSecret exSign 5 7 exReqGet
      = .failure 500 "connection-details-failed" "LIVEKIT_API_SECRET is not defined"
    ∧ handle exEnv exSignFail 5 7 exReqGet
      = .failure 500 "connection-details-failed" "boom" :=
  ⟨(c2_error_response exEnvNoUrl exSign 5 7 exReqGet).1 (Or.inl rfl),
   (c2_error_response exEnvNoKey exSign 5 7 exReqGet).2.1 "wss://example" rfl
     (by decide) (Or.inl rfl),
   (c2_error_response exEnvNoSecret exSign 5 7 exReqGet).2.2.1 "wss://example" "key" rfl
     (by decide) rfl (by decide) (Or.inl rfl),
   (c2_error_response exEnv exSignFail 5 7 exReqGet).2.2.2 "wss://example" "key" "secret"
     "boom" rfl (by decide) rfl (by decide) rfl (by decide) rfl⟩

/-- C3, counterexample.  On a `GET` request whose `agentName` query parameter
is present but empty, an agent name is present (the extracted value is the
string `""`, not `undefined`), yet the token request carries no room
configuration, because the handler guards `roomConfig` with JavaScript
truthiness rather than presence. -/
theorem c3_counterexample :
    routeAgentName exReqGetEmptyAgent = .str ""
    ∧ JSValue.str "" ≠ JSValue.undefined
    ∧ (builtTokenRequest "voice_assistant_user_0" "user" "voice_assistant_room_0"
        (.str "") "k" "s").roomConfig = none := by
  refine ⟨rfl, by simp, rfl⟩

/-- C3, amended.  The optional agent name is taken from the `agentName` query
parameter on non-`POST` methods and from
`body.room_config.agents[0].agent_name` on `POST`; the token is minted with
a room configuration naming exactly that one agent when the extracted value
is truthy, and with no room configuration when it is falsy (absent,
`undefined`, or in particular the empty string). -/
theorem c3_agent_selection (req : RouteRequest) (idn nm rn k sec : String) :
    (req.method ≠ "POST" → routeAgentName req = optToJS req.queryAgentName)
    ∧ (req.method = "POST" →
        routeAgentName req = getAgentNameV1 (req.body.getD (.obj [])))
    ∧ (∀ an, truthy an = false → (builtTokenRequest idn nm rn an k sec).roomConfig = none)
    ∧ (∀ an, truthy an = true →
        (builtTokenRequest idn nm rn an k sec).roomConfig
          = some { agents := [{ agentName := an }] }) := by
  refine ⟨?_, ?_, ?_, ?_⟩
  · intro h; simp [routeAgentName, h]
  · intro h; simp [routeAgentName, h]
  · intro an h; simp [builtTokenRequest, h]
  · intro an h; simp [builtTokenRequest, h]

/-- C3, witness: the amended theorem at concrete inputs — a `GET` request
naming `myagent` selects it, a truthy name lands in the room configuration,
and the empty name yields none. -/
theorem c3_witness :
    routeAgentName exReqGetAgent = optToJS (some "myagent")
    ∧ (builtTokenRequest "i" "user" "rm" (.str "myagent") "k" "s").roomConfig
        = some { agents := [{ agentName := .str "myagent" }] }
    ∧ (builtTokenRequest "i" "user" "rm" (.str "") "k" "s").roomConfig = none :=
  ⟨(c3_agent_selection exReqGetAgent "i" "user" "rm" "k" "s").1 (by decide),
   (c3_agent_selection exReqGetAgent "i" "user" "rm" "k" "s").2.2.2 (.str "myagent") rfl,
   (c3_agent_selection exReqGetAgent "i" "user" "rm" "k" "s").2.2.1 (.str "") rfl⟩

/-- C4.  Every token minted by `createParticipantToken` is obtained by
signing a request whose ttl is the 15-minute specifier `15m`, whose grants
are exactly one `VideoGrant` scoped to the generated room with `roomJoin`,
`canPublish`, `canPublishData` and `canSubscribe`, and which is issued to
the given participant identity and name with the given key pair. -/
theorem c4_token_scope (sign : TokenRequest → Except String String)
    (idn nm roomName : String) (agentName : JSValue) (k sec : String) :
    createParticipantToken sign idn nm roomName agentName k sec
      = sign (builtTokenRequest idn nm roomName agentName k sec)
    ∧ (builtTokenRequest idn nm roomName agentName k sec).ttl = "15m"
    ∧ (builtTokenRequest idn nm roomName agentName k sec).grants
        = [{ room := roomName, roomJoin := true, canPublish := true,
             canPublishData := true, canSubscribe := true }]
    ∧ (builtTokenRequest idn nm roomName agentName k sec).identity = idn
    ∧ (builtTokenRequest idn nm roomName agentName k sec).name = nm
    ∧ (builtTokenRequest idn nm roomName agentName k sec).apiKey = k
    ∧ (builtTokenRequest idn nm roomName agentName k sec).apiSecret = sec := by
  refine ⟨rfl, ?_, ?_, ?_, ?_, ?_, ?_⟩ <;>
    · unfold builtTokenRequest
      by_cases h : truthy agentName <;> simp [h]

/-- C9.  A `POST` request whose body is empty or invalid JSON does not fail
on account of the body: both route variants treat the agent name as absent
and, given a valid environment and successful signing, still answer with the
normal token response. -/
theorem c9_post_invalid_body (env : String → Option String)
    (sign : TokenRequest → Except String String) (u r : Nat) (q : Option String)
    (url key secret tok : String)
    (hu : env "LIVEKIT_URL" = some url) (hu' : url ≠ "")
    (hk : env "LIVEKIT_API_KEY" = some key) (hk' : key ≠ "")
    (hs : env "LIVEKIT_API_SECRET" = some secret) (hs' : secret ≠ "")
    (hsig : sign (builtTokenRequest (participantIdentity u) "user" (generatedRoomName r)
        .undefined key secret) = .ok tok) :
    routeAgentName { method := "POST", queryAgentName := q, body := none } = .undefined
    ∧ routeAgentName2 { method := "POST", queryAgentName := q, body := none } = none
    ∧ handle env sign u r { method := "POST", queryAgentName := q, body := none }
        = .success { serverUrl := url, roomName := generatedRoomName r,
                     participantName := "user", participantToken := tok }
    ∧ handle2 env sign u r { method := "POST", queryAgentName := q, body := none }
        = .success { serverUrl := url, roomName := generatedRoomName r,
                     participantName := "user", participantToken := tok } := by
  refine ⟨rfl, rfl, ?_, ?_⟩
  · unfold handle
    rw [requireEnv_ok _ _ _ hu hu', requireEnv_ok _ _ _ hk hk', requireEnv_ok _ _ _ hs hs']
    simp only [bindOk]
    unfold createParticipantToken
    rw [show routeAgentName { method := "POST", queryAgentName := q, body := none }
          = JSValue.undefined from rfl]
    rw [hsig]
    rfl
  · unfold handle2
    rw [requireEnv_ok _ _ _ hu hu', requireEnv_ok _ _ _ hk hk', requireEnv_ok _ _ _ hs hs']
    simp only [bindOk]
    unfold createParticipantToken
    rw [show optToJS (routeAgentName2 { method := "POST", queryAgentName := q, body := none })
          = JSValue.undefined from rfl]
    rw [hsig]
    rfl

/-- C9, witness at a concrete invalid-body `POST` request. -/
theorem c9_witness :
    routeAgentName exReqPostInvalid = .undefined
    ∧ routeAgentName2 exReqPostInvalid = none
    ∧ handle exEnv exSign 5 7 exReqPostInvalid
        = .success { serverUrl := "wss://example", roomName := generatedRoomName 7,
                     participantName := "user", participantToken := "tok" }
    ∧ handle2 exEnv exSign 5 7 exReqPostInvalid
        = .success { serverUrl := "wss://example", roomName := generatedRoomName 7,
                     participantName := "user", participantToken := "tok" } :=
  c9_post_invalid_body exEnv exSign 5 7 none "wss://example" "key" "secret" "tok"
    rfl (by decide) rfl (by decide) rfl (by decide) rfl

/-- C10, counterexample.  On a body whose `agent_name` is the number `42`,
the optional-chaining variant extracts the runtime value `42` while the
type-guarded variant extracts nothing, so the two route implementations do
not compute the same agent name. -/
theorem c10_counterexample :
    getAgentNameV1 bodyNum42 = .num 42
    ∧ getAgentNameFromBody bodyNum42 = none
    ∧ getAgentNameV1 bodyNum42 ≠ optToJS (getAgentNameFromBody bodyNum42) := by
  refine ⟨rfl, rfl, ?_⟩
  intro h
  simp [bodyNum42, getAgentNameV1, getAgentNameFromBody, optChain, optIdx,
    nullish, propGet, idxGet, isRecord, optToJS] at h

/-- C10, amended.  The type-guarded extraction refines the optional-chaining
one: whenever `getAgentNameFromBody` produces an agent name, the
optional-chaining expression produces the same name (the converse fails when
the value at the path is not a string). -/
theorem c10_refinement (body : JSValue) (s : String)
    (h : getAgentNameFromBody body = some s) :
    getAgentNameV1 body = .str s := by
  simp only [getAgentNameFromBody] at h
  split at h
  · rename_i hb
    split at h
    · rename_i hrc
      split at h
      · rename_i xs hag
        split at h
        · exact Option.noConfusion h
        · rename_i hlen
          split at h
          · rename_i hfr
            split at h
            · rename_i s' hnm
              obtain rfl : s' = s := Option.some.inj h
              unfold getAgentNameV1
              rw [optChain_eq_propGet body "room_config"]
              rw [optChain_eq_propGet _ "agents"]
              rw [hag]
              rw [show optIdx (.arr xs) 0 = xs.getD 0 .undefined from rfl]
              rw [optChain_eq_propGet _ "agent_name"]
              rw [hnm]
            · exact Option.noConfusion h
          · exact Option.noConfusion h
      · exact Option.noConfusion h
    · exact Option.noConfusion h
  · exact Option.noConfusion h

/-- C10, witness: the refinement at a well-formed body. -/
theorem c10_witness : getAgentNameV1 bodyGood = .str "myagent" :=
  c10_refinement bodyGood "myagent" rfl

/-! Helper lemmas for listener bookkeeping. -/

/-- Folding singleton additions over a list adds the mapped list. -/
theorem foldl_add_singleton {α β : Type} (l : List α) (f : α → β) (m : Multiset β) :
    l.foldl (fun acc e => acc + {f e}) m = m + ↑(l.map f) := by
  induction l generalizing m with
  | nil => simp
  | cons a t ih =>
    rw [List.foldl_cons, ih, List.map_cons, ← Multiset.cons_coe, Multiset.add_cons,
      add_comm m ({f a} : Multiset β), Multiset.singleton_add, Multiset.cons_add]

/-- Erasing the elements of a freshly added list recovers the original
multiset. -/
theorem eraseList_append_cancel {α : Type} [DecidableEq α] (l : List α) (m : Multiset α) :
    eraseList (m + (l : Multiset α)) l = m := by
  induction l generalizing m with
  | nil => simp [eraseList]
  | cons a t ih =>
    show List.foldl Multiset.erase (m + ((a :: t : List α) : Multiset α)) (a :: t) = m
    rw [List.foldl_cons, ← Multiset.cons_coe, Multiset.add_cons, Multiset.erase_cons_head]
    exact ih m

/-- Erasing elements none of which are present is a no-op. -/
theorem eraseList_not_mem {α : Type} [DecidableEq α] (l : List α) (m : Multiset α)
    (h : ∀ a ∈ l, a ∉ m) : eraseList m l = m := by
  induction l with
  | nil => rfl
  | cons a t ih =>
    show List.foldl Multiset.erase (m.erase a) t = m
    rw [Multiset.erase_of_not_mem (h a (by simp))]
    exact ih (fun x hx => h x (by simp [hx]))

/-- Erasing a freshly added element recovers the original multiset. -/
theorem add_singleton_erase {α : Type} [DecidableEq α] (m : Multiset α) (a : α) :
    (m + {a}).erase a = m := by
  rw [add_comm, Multiset.singleton_add, Multiset.erase_cons_head]

/-- The teardown unsubscription loop is `eraseList` over the instance's
participant listeners. -/
theorem teardown_loop_eq (X : Multiset Listener) :
    participantEvents.foldl (fun m e => m.erase (ownParticipantListener e)) X
      = eraseList X ownParticipantListeners := by
  rw [eraseList, ownParticipantListeners, List.foldl_map]

/-- The initialization subscription loop adds the instance's participant
listeners. -/
theorem register_loop_eq (X : Multiset Listener) :
    participantEvents.foldl (fun m e => m + {ownParticipantListener e}) X
      = X + ↑ownParticipantListeners := by
  rw [foldl_add_singleton]
  rfl

/-- `handleParticipantEvent` never touches the listener multiset. -/
theorem handleParticipantEventRun_listeners (room : RoomOracle) (source : Source)
    (s : AdapterState) :
    ((handleParticipantEventRun room source s).1).listeners = s.listeners := by
  unfold handleParticipantEventRun
  split <;> rfl

/-- `handleDeviceChange` never touches the listener multiset. -/
theorem handleDeviceChangeRun_listeners (room : RoomOracle) (source : Source)
    (s : AdapterState) :
    ((handleDeviceChangeRun room source s).1).listeners = s.listeners := by
  unfold handleDeviceChangeRun
  split
  · rfl
  · split <;> rfl

/-- Listener multiset after `initialize`, by cases on source and browser
environment. -/
theorem initAdapter_listeners (room : RoomOracle) (env : BrowserEnv) (source : Source)
    (s : AdapterState) :
    (initAdapter room env source s).1.listeners =
      if isHandledSource source = false then s.listeners
      else if (mediaDeviceKind source).isNone then s.listeners + ↑ownParticipantListeners
      else if env.hasWindow && !env.isSecureContext then
        s.listeners + ↑ownParticipantListeners
      else if env.hasWindow then
        s.listeners + ↑ownParticipantListeners
          + {Listener.deviceChange .handleDeviceChangeFn}
          + {Listener.activeDeviceChanged .handleDeviceChangeFn}
      else
        s.listeners + ↑ownParticipantListeners
          + {Listener.activeDeviceChanged .handleDeviceChangeFn} := by
  obtain ⟨hw, sc⟩ := env
  cases source <;> cases hw <;> cases sc <;>
    simp [initAdapter, handleParticipantEventRun, isHandledSource, mediaDeviceKind,
      handleDeviceChangeRun_listeners, register_loop_eq]

/-- Listener multiset after `teardown`, by cases on source and browser
environment. -/
theorem teardown_listeners (env : BrowserEnv) (source : Source) (s : AdapterState) :
    (teardown env source s).listeners =
      if (mediaDeviceKind source).isNone then eraseList s.listeners ownParticipantListeners
      else if env.hasWindow then
        ((eraseList s.listeners ownParticipantListeners).erase
            (Listener.deviceChange .handleDeviceChangeFn)).erase
          (Listener.activeDeviceChanged .handleDeviceChangeFn)
      else
        (eraseList s.listeners ownParticipantListeners).erase
          (Listener.activeDeviceChanged .handleDeviceChangeFn) := by
  obtain ⟨hw, sc⟩ := env
  cases source <;> cases hw <;>
    simp [teardown, mediaDeviceKind, teardown_loop_eq]

/-! Claims about the local-track adapter. -/

/-- C6.  Teardown removes exactly the listeners that initialization
registered: starting from a state in which none of this instance's own
listeners are registered (they are fresh closures), running `initialize`
(whether it completes or throws) followed by `teardown` leaves the listener
multiset exactly as it was; and in a secure browser window, initialization
for a camera/microphone source registers exactly the fixed participant-event
list plus the `devicechange` and `ActiveDeviceChanged` listeners. -/
theorem c6_teardown_symmetric (room : RoomOracle) (env : BrowserEnv) (source : Source)
    (s : AdapterState)
    (h1 : ∀ e, ownParticipantListener e ∉ s.listeners)
    (h2 : Listener.deviceChange .handleDeviceChangeFn ∉ s.listeners)
    (h3 : Listener.activeDeviceChanged .handleDeviceChangeFn ∉ s.listeners) :
    (teardown env source (initAdapter room env source s).1).listeners = s.listeners
    ∧ (mediaDeviceKind source ≠ none → env.hasWindow = true → env.isSecureContext = true →
        (initAdapter room env source s).1.listeners
          = s.listeners + ↑ownParticipantListeners
            + {Listener.deviceChange .handleDeviceChangeFn}
            + {Listener.activeDeviceChanged .handleDeviceChangeFn}) := by
  have hmem : ∀ a ∈ ownParticipantListeners, a ∉ s.listeners := by
    intro a ha
    obtain ⟨e, -, rfl⟩ := List.mem_map.1 ha
    exact h1 e
  constructor
  · rw [teardown_listeners, initAdapter_listeners]
    obtain ⟨hw, sc⟩ := env
    cases source <;> cases hw <;> cases sc <;>
      simp [isHandledSource, mediaDeviceKind]
    case camera.false.false =>
      rw [show s.listeners + ↑ownParticipantListeners
            + {Listener.activeDeviceChanged .handleDeviceChangeFn}
          = s.listeners + {Listener.activeDeviceChanged .handleDeviceChangeFn}
            + ↑ownParticipantListeners from by abel,
        eraseList_append_cancel, add_singleton_erase]
    case camera.false.true =>
      rw [show s.listeners + ↑ownParticipantListeners
            + {Listener.activeDeviceChanged .handleDeviceChangeFn}
          = s.listeners + {Listener.activeDeviceChanged .handleDeviceChangeFn}
            + ↑ownParticipantListeners from by abel,
        eraseList_append_cancel, add_singleton_erase]
    case camera.true.false =>
      rw [eraseList_append_cancel, Multiset.erase_of_not_mem h2, Multiset.erase_of_not_mem h3]
    case camera.true.true =>
      rw [show s.listeners + ↑ownParticipantListeners
            + {Listener.deviceChange .handleDeviceChangeFn}
            + {Listener.activeDeviceChanged .handleDeviceChangeFn}
          = s.listeners + {Listener.deviceChange .handleDeviceChangeFn}
            + {Listener.activeDeviceChanged .handleDeviceChangeFn}
            + ↑ownParticipantListeners from by abel,
        eraseList_append_cancel,
        show s.listeners + {Listener.deviceChange .handleDeviceChangeFn}
            + {Listener.activeDeviceChanged .handleDeviceChangeFn}
          = s.listeners + {Listener.activeDeviceChanged .handleDeviceChangeFn}
            + {Listener.deviceChange .handleDeviceChangeFn} from by abel,
        add_singleton_erase, add_singleton_erase]
    case microphone.false.false =>
      rw [show s.listeners + ↑ownParticipantListeners
            + {Listener.activeDeviceChanged .handleDeviceChangeFn}
          = s.listeners + {Listener.activeDeviceChanged .handleDeviceChangeFn}
            + ↑ownParticipantListeners from by abel,
        eraseList_append_cancel, add_singleton_erase]
    case microphone.false.true =>
      rw [show s.listeners + ↑ownParticipantListeners
            + {Listener.activeDeviceChanged .handleDeviceChangeFn}
          = s.listeners + {Listener.activeDeviceChanged .handleDeviceChangeFn}
            + ↑ownParticipantListeners from by abel,
        eraseList_append_cancel, add_singleton_erase]
    case microphone.true.false =>
      rw [eraseList_append_cancel, Multiset.erase_of_not_mem h2, Multiset.erase_of_not_mem h3]
    case microphone.true.true =>
      rw [show s.listeners + ↑ownParticipantListeners
            + {Listener.deviceChange .handleDeviceChangeFn}
            + {Listener.activeDeviceChanged .handleDeviceChangeFn}
          = s.listeners + {Listener.deviceChange .handleDeviceChangeFn}
            + {Listener.activeDeviceChanged .handleDeviceChangeFn}
            + ↑ownParticipantListeners from by abel,
        eraseList_append_cancel,
        show s.listeners + {Listener.deviceChange .handleDeviceChangeFn}
            + {Listener.activeDeviceChanged .handleDeviceChangeFn}
          = s.listeners + {Listener.activeDeviceChanged .handleDeviceChangeFn}
            + {Listener.deviceChange .handleDeviceChangeFn} from by abel,
        add_singleton_erase, add_singleton_erase]
    case screenShare.false.false => rw [eraseList_append_cancel]
    case screenShare.false.true => rw [eraseList_append_cancel]
    case screenShare.true.false => rw [eraseList_append_cancel]
    case screenShare.true.true => rw [eraseList_append_cancel]
    case screenShareAudio.false.false => rw [eraseList_not_mem _ _ hmem]
    case screenShareAudio.false.true => rw [eraseList_not_mem _ _ hmem]
    case screenShareAudio.true.false => rw [eraseList_not_mem _ _ hmem]
    case screenShareAudio.true.true => rw [eraseList_not_mem _ _ hmem]
    case unknown.false.false => rw [eraseList_not_mem _ _ hmem]
    case unknown.false.true => rw [eraseList_not_mem _ _ hmem]
    case unknown.true.false => rw [eraseList_not_mem _ _ hmem]
    case unknown.true.true => rw [eraseList_not_mem _ _ hmem]
  · intro hk hwt sct
    rw [initAdapter_listeners]
    obtain ⟨hw, sc⟩ := env
    cases source
    case screenShare => exact absurd rfl hk
    case screenShareAudio => exact absurd rfl hk
    case unknown => exact absurd rfl hk
    case camera =>
      simp only [BrowserEnv.hasWindow] at hwt
      simp only [BrowserEnv.isSecureContext] at sct
      subst hwt
      subst sct
      simp [isHandledSource, mediaDeviceKind]
    case microphone =>
      simp only [BrowserEnv.hasWindow] at hwt
      simp only [BrowserEnv.isSecureContext] at sct
      subst hwt
      subst sct
      simp [isHandledSource, mediaDeviceKind]

/-- C6, witness: the secure-window camera round trip starting from an empty
listener multiset. -/
theorem c6_witness :
    (teardown secureBrowser .camera
        (initAdapter sampleRoom secureBrowser .camera sampleAdapterState).1).listeners
      = sampleAdapterState.listeners
    ∧ (initAdapter sampleRoom secureBrowser .camera sampleAdapterState).1.listeners
      = sampleAdapterState.listeners + ↑ownParticipantListeners
        + {Listener.deviceChange .handleDeviceChangeFn}
        + {Listener.activeDeviceChanged .handleDeviceChangeFn} :=
  ⟨(c6_teardown_symmetric sampleRoom secureBrowser .camera sampleAdapterState
      (by intro e; simp [sampleAdapterState]) (by simp [sampleAdapterState])
      (by simp [sampleAdapterState])).1,
   (c6_teardown_symmetric sampleRoom secureBrowser .camera sampleAdapterState
      (by intro e; simp [sampleAdapterState]) (by simp [sampleAdapterState])
      (by simp [sampleAdapterState])).2 (by simp [mediaDeviceKind]) rfl rfl⟩

/-- C5.  Toggling is exactly setting the negated enabled flag: `toggle`
with given capture/publish options is definitionally `set(!enabled)` with the
same options, and when the SDK call resolves, both return the SDK-reported
enablement getter for the track's source read after the call settled. -/
theorem c5_toggle_is_set_not (room : RoomOracle) (source : Source) (preventSave : Bool)
    (cap : Option CaptureOpts) (pub : Option PublishOpts) (s : AdapterState) :
    toggleEnabled room source preventSave cap pub s
      = setEnabled room source preventSave (!s.track.enabled) cap pub s
    ∧ (∀ e r, isHandledSource source = true → s.track.pending = false →
        sdkSetCall room source e cap pub = .ok r →
        setOutcomeRet (setEnabled room source preventSave e cap pub s)
          = some (sourceEnabledGetter source r))
    ∧ (∀ r, isHandledSource source = true → s.track.pending = false →
        sdkSetCall room source (!s.track.enabled) cap pub = .ok r →
        setOutcomeRet (toggleEnabled room source preventSave cap pub s)
          = some (sourceEnabledGetter source r)) := by
  refine ⟨rfl, ?_, ?_⟩
  · intro e r hv hp hc
    cases source <;> simp [isHandledSource] at hv <;>
      · simp only [sdkSetCall] at hc
        simp [setEnabled, hp, hc, setEnabledSettle, setOutcomeRet, sourceEnabledGetter]
  · intro r hv hp hc
    cases source <;> simp [isHandledSource] at hv <;>
      · simp only [sdkSetCall] at hc
        simp [toggleEnabled, setEnabled, hp, hc, setEnabledSettle, setOutcomeRet,
          sourceEnabledGetter]

/-- C5, witness: at a concrete camera instance whose SDK call resolves, the
toggle/set agreement and the returned getter value. -/
theorem c5_witness :
    toggleEnabled sampleRoom .camera false none none sampleAdapterState
      = setEnabled sampleRoom .camera false (!sampleAdapterState.track.enabled) none none
          sampleAdapterState
    ∧ setOutcomeRet (setEnabled sampleRoom .camera false true none none sampleAdapterState)
        = some (sourceEnabledGetter .camera sampleSnapshot) :=
  ⟨(c5_toggle_is_set_not sampleRoom .camera false none none sampleAdapterState).1,
   (c5_toggle_is_set_not sampleRoom .camera false none none sampleAdapterState).2.1
     true sampleSnapshot rfl rfl rfl⟩

/-- C8.  For a `set` call that proceeds (handled source, not already
pending): the state published while the SDK call is in flight has
`pending = true`; on rejection the error is rethrown after emitting
`DeviceError`, with `pending` reset to `false` and the `enabled` flag
untouched; on resolution `pending` is reset to `false` and the call returns
the live enablement getter. -/
theorem c8_set_pending_lifecycle (room : RoomOracle) (source : Source) (preventSave : Bool)
    (e : Bool) (cap : Option CaptureOpts) (pub : Option PublishOpts) (s : AdapterState)
    (hv : isHandledSource source = true) (hp : s.track.pending = false) :
    (setEnabledDuringCall s).track.pending = true
    ∧ (∀ err, sdkSetCall room source e cap pub = .error err →
        setOutcomeThrewMsg (setEnabled room source preventSave e cap pub s) = some err
        ∧ (setOutcomeState (setEnabled room source preventSave e cap pub s)).track.pending = false
        ∧ (setOutcomeState (setEnabled room source preventSave e cap pub s)).track.enabled
            = s.track.enabled
        ∧ EmittedEvent.deviceError err source
            ∈ (setOutcomeState (setEnabled room source preventSave e cap pub s)).events)
    ∧ (∀ r, sdkSetCall room source e cap pub = .ok r →
        setOutcomeRet (setEnabled room source preventSave e cap pub s)
          = some (sourceEnabledGetter source r)
        ∧ (setOutcomeState (setEnabled room source preventSave e cap pub s)).track.pending
            = false) := by
  refine ⟨rfl, ?_, ?_⟩
  · intro err hc
    cases source <;> simp [isHandledSource] at hv <;>
      · simp only [sdkSetCall] at hc
        simp [setEnabled, hp, hc, setEnabledSettle, setOutcomeThrewMsg, setOutcomeState,
          setEnabledDuringCall]
  · intro r hc
    cases source <;> simp [isHandledSource] at hv <;>
      · simp only [sdkSetCall] at hc
        simp [setEnabled, hp, hc, setEnabledSettle, setOutcomeRet, setOutcomeState,
          sourceEnabledGetter, updateUserChoices]

/-- C8, witness: the rejection path on a denying room and the resolution
path on a succeeding room, at a concrete camera instance. -/
theorem c8_witness :
    (setEnabledDuringCall sampleAdapterState).track.pending = true
    ∧ setOutcomeThrewMsg (setEnabled failRoom .camera false true none none sampleAdapterState)
        = some "device denied"
    ∧ (setOutcomeState (setEnabled failRoom .camera false true none none
          sampleAdapterState)).track.enabled = sampleAdapterState.track.enabled
    ∧ setOutcomeRet (setEnabled sampleRoom .camera false true none none sampleAdapterState)
        = some (sourceEnabledGetter .camera sampleSnapshot) :=
  ⟨(c8_set_pending_lifecycle failRoom .camera false true none none sampleAdapterState
      rfl rfl).1,
   ((c8_set_pending_lifecycle failRoom .camera false true none none sampleAdapterState
      rfl rfl).2.1 "device denied" rfl).1,
   ((c8_set_pending_lifecycle failRoom .camera false true none none sampleAdapterState
      rfl rfl).2.1 "device denied" rfl).2.2.1,
   ((c8_set_pending_lifecycle sampleRoom .camera false true none none sampleAdapterState
      rfl rfl).2.2 sampleSnapshot rfl).1⟩

/-- C7.  The devices view exists exactly for the camera (kind `videoinput`)
and microphone (kind `audioinput`) sources; for every other source the view
is absent and both `listDevices` and `changeActiveDevice` throw; and every
device list `listDevices` produces contains only entries with a non-empty
`deviceId`. -/
theorem c7_devices_view (room : RoomOracle) (source : Source)
    (choices : LocalUserChoices) (rp : Bool) :
    ((createLocalTrack room source choices).devices.isSome
      ↔ (source = .camera ∨ source = .microphone))
    ∧ ((createLocalTrack room source choices).devices.map DevicesView.kind
        = mediaDeviceKind source)
    ∧ mediaDeviceKind .camera = some "videoinput"
    ∧ mediaDeviceKind .microphone = some "audioinput"
    ∧ (mediaDeviceKind source = none →
        listDevices room source rp
          = .error ("LocalTrackInstance.devices.list - Unable to list devices for track source "
              ++ sourceName source ++ "."))
    ∧ (∀ id exact s preventSave, mediaDeviceKind source = none →
        changeActiveDevice room source preventSave id exact s
          = (s, .error (changeActiveDeviceInvalidMessage source)))
    ∧ (∀ l, listDevices room source rp = .ok l → ∀ d ∈ l, d.deviceId ≠ "") := by
  refine ⟨?_, ?_, rfl, rfl, ?_, ?_, ?_⟩
  · cases source <;> simp [createLocalTrack, mediaDeviceKind]
  · cases source <;> simp [createLocalTrack, mediaDeviceKind]
  · intro hk
    simp [listDevices, hk]
  · intro id exact s preventSave hk
    simp [changeActiveDevice, hk]
  · intro l hl d hd
    rcases hq : mediaDeviceKind source with _ | k
    · simp [listDevices, hq] at hl
    · rcases hg : room.getLocalDevices k rp with e | devices
      · simp [listDevices, hq, hg] at hl
      · simp [listDevices, hq, hg] at hl
        rw [← hl] at hd
        simpa using (List.mem_filter.1 hd).2

/-- C7, witness: the kind-`none` failures at a screen-share source and a
filtered, non-empty-id device list at a camera source. -/
theorem c7_witness :
    listDevices deviceRoom .screenShare false
      = .error ("LocalTrackInstance.devices.list - Unable to list devices for track source "
          ++ sourceName .screenShare ++ ".")
    ∧ changeActiveDevice deviceRoom .screenShare false "default" none sampleAdapterState
        = (sampleAdapterState, .error (changeActiveDeviceInvalidMessage .screenShare))
    ∧ ((createLocalTrack deviceRoom .camera defaultChoices).devices.isSome
        ↔ (Source.camera = .camera ∨ Source.camera = .microphone))
    ∧ ({ deviceId := "id1", kind := "videoinput", label := "Cam" } : MediaDeviceInfo).deviceId
        ≠ "" :=
  ⟨(c7_devices_view deviceRoom .screenShare defaultChoices false).2.2.2.2.1 rfl,
   (c7_devices_view deviceRoom .screenShare defaultChoices false).2.2.2.2.2.1
     "default" none sampleAdapterState false rfl,
   (c7_devices_view deviceRoom .camera defaultChoices false).1,
   (c7_devices_view deviceRoom .camera defaultChoices false).2.2.2.2.2.2
     [{ deviceId := "id1", kind := "videoinput", label := "Cam" }] rfl
     { deviceId := "id1", kind := "videoinput", label := "Cam" } (by simp)⟩

end AgentStarterReact
